import Mathlib

/-!
Verification of the tenant authentication, quota enforcement and
real-time session coordination layer of the PERN SaaS API builder.

The definitions below are a shallow embedding of
`backend/middleware/auth.js` (the `authenticateTenant`, `checkRateLimit`
and `requirePermission` middleware), the WebSocket coordinator in the
server (`setupWebSocket`: join-tenant, execute-query, ping, disconnect
handlers and the periodic cleanup), and the relevant tables of
`database/init.sql` (`tenants`, `api_keys`, `api_usage_logs`,
`realtime_connections`).

Timestamps are milliseconds since the Unix epoch, as in JavaScript
`Date.now()`, modelled as `Nat`. The SQL comparison
`created_at >= $2` with a YYYY-MM-DD date string (the date part of the
ISO timestamp of the evaluation instant) compares
against midnight UTC of the current day, i.e. `now / 86400000 * 86400000`.
The SQL sweep condition `last_ping_at < NOW() - INTERVAL 10 minutes` is
timestamp arithmetic without truncation, hence embedded as
`last_ping_at + 600000 < now`.

Fallible store operations that the claims are about are modelled by
explicit success flags in the environment (`countQueryOk` for the usage
count query, `updateLastUsedOk` for the api-key last-used update,
`insertOk` for the realtime-connection upsert); all other queries are
assumed to succeed. JWT verification (`jsonwebtoken`, an external
library) is modelled abstractly as a function from the token string to
the decoded tenant id, `none` meaning invalid signature or expiry.
-/

/-- A row of the `tenants` table (`init.sql`). -/
structure Tenant where
  id : Nat
  name : String
  subdomain : String
  api_key : String
  plan : String
  max_endpoints : Nat
  max_requests_per_day : Nat
  is_active : Bool
  deriving Repr, DecidableEq

/-- A row of the `api_keys` table (`init.sql`). The JSONB `permissions`
map is modelled as the list of capability names whose grant is truthy.
`rate_limit` is a nullable integer. -/
structure ApiKey where
  id : Nat
  tenant_id : Nat
  key_name : String
  api_key : String
  permissions : List String
  rate_limit : Option Nat
  is_active : Bool
  expires_at : Option Nat
  deriving Repr, DecidableEq

/-- A row of the `api_usage_logs` table, restricted to the columns the
quota check reads. -/
structure UsageRecord where
  tenant_id : Nat
  created_at : Nat
  deriving Repr, DecidableEq

/-- A row of the `realtime_connections` table (`init.sql`);
`connection_id` is UNIQUE in the schema. -/
structure ConnRow where
  tenant_id : Nat
  connection_id : String
  socket_id : String
  connected_at : Nat
  last_ping_at : Nat
  is_active : Bool
  deriving Repr, DecidableEq

/-- The persistent store as seen by this layer. -/
structure DB where
  tenants : List Tenant
  apiKeys : List ApiKey
  usageLogs : List UsageRecord
  deriving Repr

/-- Request-side inputs and injected failure points. -/
structure Env where
  now : Nat
  countQueryOk : Bool
  updateLastUsedOk : Bool
  jwtVerify : String → Option Nat

/-- The incoming HTTP request fields read by `authenticateTenant`. -/
structure Request where
  header_x_api_key : Option String
  header_authorization : Option String
  query_api_key : Option String

/-- JavaScript `a || b` on optional strings: `undefined` and the empty
string are falsy. -/
def jsOrString : Option String → Option String → Option String
  | some s, y => if s = "" then y else some s
  | none, y => y

/-- JavaScript `a || b` where `a` is a nullable integer: `null` and `0`
are falsy. -/
def jsOrNat : Option Nat → Nat → Nat
  | none, d => d
  | some v, d => if v = 0 then d else v

/-- JavaScript truthiness of a nullable integer. -/
def jsTruthyNat : Option Nat → Bool
  | none => false
  | some v => v != 0

/-- Removes the first occurrence of `pat` from a character list,
leaving the rest unchanged. -/
def dropFirstMatch (pat : List Char) : List Char → List Char
  | [] => []
  | c :: rest =>
    if pat.isPrefixOf (c :: rest) then (c :: rest).drop pat.length
    else c :: dropFirstMatch pat rest

/-- The JavaScript replace call on the authorization header, deleting
the first occurrence of the seven-character pattern `Bearer` followed
by a space, the rest of the string unchanged. -/
def stripBearer (s : String) : String :=
  String.mk (dropFirstMatch ("Bearer ").data s.data)

/-- The startsWith check on the marker `eyJ` discriminating a JWT from
an opaque key (auth.js line 25). -/
def hasJwtMarker (s : String) : Bool :=
  match s.data with
  | 'e' :: 'y' :: 'J' :: _ => true
  | _ => false

/-- Credential extraction: key header, then bearer authorization header,
then query parameter; first truthy wins (auth.js lines 13-15). -/
def extractCredential (req : Request) : Option String :=
  jsOrString req.header_x_api_key
    (jsOrString (req.header_authorization.map stripBearer) req.query_api_key)

/-- `tenant.expires_at && new Date(tenant.expires_at) < new Date()`. -/
def isExpired (e : Option Nat) (now : Nat) : Bool :=
  match e with
  | some t => t < now
  | none => false

/-- Midnight UTC of the day containing `now` (the timestamp denoted by
the YYYY-MM-DD date string the source builds from the ISO timestamp
of the evaluation instant). -/
def dayStart (now : Nat) : Nat := now / 86400000 * 86400000

/-- `SELECT COUNT(*) FROM api_usage_logs WHERE tenant_id = $1 AND
created_at >= $2`. -/
def countUsageSince (logs : List UsageRecord) (tid : Nat) (lower : Nat) : Nat :=
  (logs.filter (fun r => r.tenant_id == tid && lower ≤ r.created_at)).length

/-- Result shape of `checkRateLimit`; `resetTime` is absent in the
error branch of the source. -/
structure RateLimitResult where
  allowed : Bool
  current : Nat
  limit : Nat
  resetTime : Option Nat
  deriving Repr, DecidableEq

/-- `checkRateLimit(pool, tenantId, dailyLimit)` from auth.js lines
128-152: counts the usage rows of the current UTC day and compares
with the limit; a
failing count query degrades to `allowed = true`. -/
def checkRateLimit (env : Env) (logs : List UsageRecord) (tenantId : Nat)
    (dailyLimit : Nat) : RateLimitResult :=
  if env.countQueryOk then
    let currentCount := countUsageSince logs tenantId (dayStart env.now)
    { allowed := currentCount < dailyLimit, current := currentCount,
      limit := dailyLimit, resetTime := some (env.now + 86400000) }
  else
    { allowed := true, current := 0, limit := dailyLimit, resetTime := none }

/-- The `req.tenant` object attached on success. On the JWT path the raw
tenant row is attached, which carries no `permissions` or `rate_limit`
field (`none`); on the API-key path the curated object of auth.js lines
97-106 is attached. -/
structure ReqTenant where
  id : Nat
  name : String
  subdomain : String
  plan : String
  max_endpoints : Nat
  max_requests_per_day : Nat
  permissions : Option (List String)
  rate_limit : Option Nat
  deriving Repr, DecidableEq

/-- Outcome of the authentication middleware: which response is sent,
or `admitted` when `next()` is reached (carrying `req.tenant` and
`req.authMethod`). -/
inductive AuthOutcome where
  | unauthenticated
  | invalidToken
  | invalidCredential
  | credentialExpired
  | quotaExceeded (limit : Nat) (resetTime : Option Nat)
  | internalError
  | admitted (tenant : ReqTenant) (authMethod : String)
  deriving Repr, DecidableEq

/-- `req.tenant` on the JWT path: the raw tenants row. -/
def jwtReqTenant (t : Tenant) : ReqTenant :=
  { id := t.id, name := t.name, subdomain := t.subdomain, plan := t.plan,
    max_endpoints := t.max_endpoints,
    max_requests_per_day := t.max_requests_per_day,
    permissions := none, rate_limit := none }

/-- One row of the key-validation query of auth.js lines 52-58:
the active tenant joined with the matching secondary key, if any.
The three joined columns are NULL when the match was on the primary
key only. -/
structure KeyRow where
  tenant : Tenant
  permissions : Option (List String)
  api_key_rate_limit : Option Nat
  expires_at : Option Nat
  deriving Repr, DecidableEq

/-- `LEFT JOIN api_keys ak ON t.id = ak.tenant_id AND ak.api_key = $1`:
the secondary key matching both the tenant and the credential. Note the
join consults neither `ak.is_active` nor `ak.expires_at`. -/
def findApiKey (keys : List ApiKey) (key : String) (tid : Nat) : Option ApiKey :=
  keys.find? (fun ak => ak.tenant_id == tid && ak.api_key == key)

/-- The key-validation query: tenants filtered by
`(t.api_key = $1 OR ak.api_key = $1) AND t.is_active = true`, left-joined
with the matching api_keys row; `result.rows[0]` is the head. -/
def lookupByKey (db : DB) (key : String) : Option KeyRow :=
  (db.tenants.filterMap (fun t =>
    if t.is_active then
      match findApiKey db.apiKeys key t.id with
      | some ak =>
          some { tenant := t, permissions := some ak.permissions,
                 api_key_rate_limit := ak.rate_limit,
                 expires_at := ak.expires_at }
      | none =>
          if t.api_key == key then
            some { tenant := t, permissions := none,
                   api_key_rate_limit := none, expires_at := none }
          else none
    else none)).head?

/-- `req.tenant` on the API-key path (auth.js lines 97-106):
`permissions: tenant.permissions || \x7b\x7d` and
`rate_limit: tenant.api_key_rate_limit || tenant.max_requests_per_day`. -/
def apiReqTenant (row : KeyRow) (limit : Nat) : ReqTenant :=
  { id := row.tenant.id, name := row.tenant.name,
    subdomain := row.tenant.subdomain, plan := row.tenant.plan,
    max_endpoints := row.tenant.max_endpoints,
    max_requests_per_day := row.tenant.max_requests_per_day,
    permissions := some (row.permissions.getD []),
    rate_limit := some limit }

/-- The opaque-key branch of `authenticateTenant` after the lookup
succeeded (auth.js lines 68-114): expiry check, awaited last-used
update (whose failure is caught by the outer catch and becomes a 500),
rate-limit check, then attach tenant and proceed. -/
def resolveKeyRow (env : Env) (logs : List UsageRecord) (row : KeyRow) :
    AuthOutcome :=
  if isExpired row.expires_at env.now then
    .credentialExpired
  else if jsTruthyNat row.api_key_rate_limit && !env.updateLastUsedOk then
    .internalError
  else
    let limit := jsOrNat row.api_key_rate_limit row.tenant.max_requests_per_day
    let rl := checkRateLimit env logs row.tenant.id limit
    if !rl.allowed then .quotaExceeded rl.limit rl.resetTime
    else .admitted (apiReqTenant row limit) "api_key"

/-- `authenticateTenant` (auth.js lines 8-123): extract the credential;
a token with the JWT encoding prefix is verified and its tenant looked
up, any other credential goes through the key-validation path. -/
def authenticateTenant (env : Env) (db : DB) (req : Request) : AuthOutcome :=
  match extractCredential req with
  | none => .unauthenticated
  | some key =>
    if hasJwtMarker key then
      match env.jwtVerify key with
      | none => .invalidToken
      | some tid =>
        match db.tenants.find? (fun t => t.id == tid && t.is_active) with
        | none => .invalidToken
        | some t => .admitted (jwtReqTenant t) "jwt"
    else
      match lookupByKey db key with
      | none => .invalidCredential
      | some row => resolveKeyRow env db.usageLogs row

/-- Outcome of the `requirePermission` middleware. -/
inductive GateOutcome where
  | unauthenticated
  | permissionDenied (name : String)
  | pass
  deriving Repr, DecidableEq

/-- `permissions[permission]` truthiness on `req.tenant.permissions || \x7b\x7d`. -/
def grantsPermission (t : ReqTenant) (name : String) : Bool :=
  (t.permissions.getD []).contains name

/-- `requirePermission(permission)` (auth.js lines 191-211). -/
def requirePermission (permission : String) (tenant : Option ReqTenant) :
    GateOutcome :=
  match tenant with
  | none => .unauthenticated
  | some t =>
    if !grantsPermission t permission && t.plan != "enterprise" then
      .permissionDenied permission
    else .pass

/-! ## Real-time session coordinator (`setupWebSocket` in the server) -/

/-- Per-socket state: the only field the authenticated-only handlers
consult is `socket.tenantId` (set by a successful credential check in
the join handler). -/
structure SocketState where
  tenantId : Option Nat
  deriving Repr, DecidableEq

/-- Events emitted back on the channel by the handlers modelled here. -/
inductive WsEmit where
  | joined (tenantId : Nat)
  | errorMsg (m : String)
  deriving Repr, DecidableEq

/-- Result of one join-tenant event: the socket state, the
`realtime_connections` table and the emitted event; `disconnected`
records whether the handler tore the connection down (it never does). -/
structure WsResult where
  socket : SocketState
  rows : List ConnRow
  emit : WsEmit
  disconnected : Bool
  deriving Repr, DecidableEq

/-- `SELECT * FROM tenants WHERE id = $1 AND api_key = $2 AND
is_active = true` (the join-tenant credential check). -/
def verifyTenantWs (db : DB) (tid : Nat) (key : String) : Option Tenant :=
  db.tenants.find? (fun t => t.id == tid && t.api_key == key && t.is_active)

/-- `INSERT INTO realtime_connections ... ON CONFLICT (connection_id)
DO UPDATE SET last_ping_at = CURRENT_TIMESTAMP, is_active = true`;
`connection_id` is UNIQUE in the schema. -/
def upsertConnection (rows : List ConnRow) (tid : Nat) (cid sid : String)
    (now : Nat) : List ConnRow :=
  if rows.any (fun r => r.connection_id == cid) then
    rows.map (fun r =>
      if r.connection_id == cid then
        { r with last_ping_at := now, is_active := true }
      else r)
  else
    rows ++ [{ tenant_id := tid, connection_id := cid, socket_id := sid,
               connected_at := now, last_ping_at := now, is_active := true }]

/-- The join-tenant handler (server lines 458-494). On a credential
match the socket joins the room and `socket.tenantId` is assigned
BEFORE the connection row is persisted; a thrown insert is caught and
an error event emitted. On no match an error event is emitted and the
socket state is untouched. The handler never disconnects the socket. -/
def joinTenant (db : DB) (rows : List ConnRow) (s : SocketState)
    (sid : String) (tid : Nat) (key : String) (now : Nat)
    (insertOk : Bool) : WsResult :=
  match verifyTenantWs db tid key with
  | some _t =>
      let s2 : SocketState := { s with tenantId := some tid }
      if insertOk then
        { socket := s2, rows := upsertConnection rows tid sid sid now,
          emit := .joined tid, disconnected := false }
      else
        { socket := s2, rows := rows,
          emit := .errorMsg "Connection failed", disconnected := false }
  | none =>
      { socket := s, rows := rows,
        emit := .errorMsg "Invalid tenant credentials", disconnected := false }

/-- Outcome of the authentication gate of the execute-query handler
(`if (!socket.tenantId)` at server lines 496-500). -/
inductive ExecOutcome where
  | notAuthenticated
  | executed (tid : Nat)
  deriving Repr, DecidableEq

/-- The gate of the execute-query handler: rejected with a not-authenticated
error when no tenant is bound, otherwise the query proceeds for the
bound tenant. -/
def executeQueryGate (s : SocketState) : ExecOutcome :=
  match s.tenantId with
  | none => .notAuthenticated
  | some tid => .executed tid

/-- The periodic cleanup (server lines 560-569):
`DELETE FROM realtime_connections WHERE last_ping_at < NOW() -
INTERVAL 10 minutes OR is_active = false`. -/
def sweep (rows : List ConnRow) (now : Nat) : List ConnRow :=
  rows.filter (fun r => !(r.last_ping_at + 600000 < now || r.is_active == false))

/-- Number of rows carrying a given connection id. -/
def cidCount (rows : List ConnRow) (cid : String) : Nat :=
  rows.countP (fun r => r.connection_id == cid)

/-! ## Shared lemmas -/

/-- On a non-JWT credential, `authenticateTenant` is the key-validation
lookup followed by `resolveKeyRow`. -/
lemma auth_key_path (env : Env) (db : DB) (req : Request) (k : String)
    (h1 : extractCredential req = some k) (h2 : hasJwtMarker k = false) :
    authenticateTenant env db req =
      match lookupByKey db k with
      | none => .invalidCredential
      | some row => resolveKeyRow env db.usageLogs row := by
  simp [authenticateTenant, h1, h2]

/-! ## Claim theorems -/

/-- Claim C5: an identity on the enterprise plan passes the permission check
for every capability name regardless of its permission set; a
non-enterprise identity whose permission set does not grant the name is
rejected with PermissionDenied. -/
theorem enterprise_bypasses_permission_check (name : String) (t : ReqTenant) :
    (t.plan = "enterprise" → requirePermission name (some t) = .pass) ∧
    (t.plan ≠ "enterprise" → grantsPermission t name = false →
      requirePermission name (some t) = .permissionDenied name) := by
  constructor
  · intro h
    simp [requirePermission, h]
  · intro h hg
    simp [requirePermission, hg, h]

/-- Witness for C5: an enterprise identity with an empty permission set
passes the `deploy` check; a basic identity with an unrelated grant is
denied. -/
theorem enterprise_bypasses_permission_check_witness :
    requirePermission "deploy"
      (some ⟨1, "E", "e", "enterprise", 0, 0, some [], none⟩) = .pass ∧
    requirePermission "deploy"
      (some ⟨2, "B", "b", "basic", 0, 0, some ["read"], none⟩) =
        .permissionDenied "deploy" :=
  ⟨(enterprise_bypasses_permission_check "deploy"
      ⟨1, "E", "e", "enterprise", 0, 0, some [], none⟩).1 rfl,
   (enterprise_bypasses_permission_check "deploy"
      ⟨2, "B", "b", "basic", 0, 0, some ["read"], none⟩).2
      (by decide) (by decide)⟩

/-- Claim C9: a sweep run retains exactly the rows that are both fresh
(heartbeat within the 10-minute threshold) and active; every stale or
inactive row is deleted. -/
theorem sweep_deletes_stale_or_inactive (rows : List ConnRow) (now : Nat)
    (r : ConnRow) :
    r ∈ sweep rows now ↔
      r ∈ rows ∧ ¬ (r.last_ping_at + 600000 < now) ∧ r.is_active = true := by
  simp [sweep, List.mem_filter, Nat.not_lt, and_assoc]

/-- Witness for C9: with the sweep running at time 1000000 ms, an active
row whose heartbeat is 11 minutes old (last ping 340000) is deleted and
an active row whose heartbeat is 9 minutes old (last ping 460000) is
retained. -/
theorem sweep_deletes_stale_or_inactive_witness :
    (⟨1, "b", "b", 0, 460000, true⟩ : ConnRow) ∈
      sweep [⟨1, "a", "a", 0, 340000, true⟩, ⟨1, "b", "b", 0, 460000, true⟩]
        1000000 ∧
    (⟨1, "a", "a", 0, 340000, true⟩ : ConnRow) ∉
      sweep [⟨1, "a", "a", 0, 340000, true⟩, ⟨1, "b", "b", 0, 460000, true⟩]
        1000000 :=
  ⟨(sweep_deletes_stale_or_inactive _ _ _).mpr (by decide),
   fun h => by
     have := (sweep_deletes_stale_or_inactive _ _ _).mp h
     simp at this⟩

/-- A failing count query can never produce a quota rejection in the
opaque-key branch. -/
lemma resolveKeyRow_no_quota_of_fail (env : Env) (h : env.countQueryOk = false)
    (logs : List UsageRecord) (row : KeyRow) (L : Nat) (r : Option Nat) :
    resolveKeyRow env logs row ≠ .quotaExceeded L r := by
  unfold resolveKeyRow
  split
  · simp
  · split
    · simp
    · simp [checkRateLimit, h]

/-- Claim C3: when the usage-count query fails, the quota evaluation degrades
to fail-open (`allowed = true`), and no request is ever rejected with
QuotaExceeded. -/
theorem quota_fail_open_on_count_error (env : Env)
    (h : env.countQueryOk = false) :
    (∀ logs tid L, (checkRateLimit env logs tid L).allowed = true) ∧
    (∀ db req L r, authenticateTenant env db req ≠ .quotaExceeded L r) := by
  refine ⟨fun logs tid L => by simp [checkRateLimit, h], ?_⟩
  intro db req L r
  unfold authenticateTenant
  split
  · simp
  · split
    · split
      · simp
      · split <;> simp
    · split
      · simp
      · exact resolveKeyRow_no_quota_of_fail env h _ _ _ _

/-- Witness for C3: with the count query failing, the quota check
allows a tenant whose count would otherwise be over the limit, and the
whole middleware does not reject with QuotaExceeded. -/
theorem quota_fail_open_on_count_error_witness :
    (checkRateLimit ⟨100000000, false, true, fun _ => none⟩
      [⟨1, 99000000⟩, ⟨1, 99000001⟩] 1 1).allowed = true ∧
    authenticateTenant ⟨100000000, false, true, fun _ => none⟩
      ⟨[⟨1, "T", "t", "pk", "basic", 10, 1, true⟩], [],
        [⟨1, 99000000⟩, ⟨1, 99000001⟩]⟩
      ⟨some "pk", none, none⟩ ≠ .quotaExceeded 1 none :=
  ⟨(quota_fail_open_on_count_error _ rfl).1 _ _ _,
   (quota_fail_open_on_count_error _ rfl).2 _ _ _ _⟩

/-- Claim C4: a credential matched via a secondary ApiKey whose expiry is set
and in the past resolves to CredentialExpired. In the embedding,
`row.expires_at` is populated exactly when the match came through a
secondary ApiKey, and `lookupByKey` only returns rows of active
tenants whose key matched exactly. -/
theorem expired_secondary_key_rejected (env : Env) (db : DB) (req : Request)
    (k : String) (row : KeyRow) (e : Nat)
    (h1 : extractCredential req = some k) (h2 : hasJwtMarker k = false)
    (h3 : lookupByKey db k = some row) (h4 : row.expires_at = some e)
    (h5 : e < env.now) :
    authenticateTenant env db req = .credentialExpired := by
  rw [auth_key_path env db req k h1 h2, h3]
  simp [resolveKeyRow, isExpired, h4, h5]

/-- Witness for C4: an active tenant with an exactly matching secondary
key that expired at time 50, resolved at time 100, yields
CredentialExpired. -/
theorem expired_secondary_key_rejected_witness :
    authenticateTenant ⟨100, true, true, fun _ => none⟩
      ⟨[⟨1, "T", "t", "pk", "basic", 10, 100, true⟩],
        [⟨7, 1, "k", "sk", ["read"], some 5, true, some 50⟩], []⟩
      ⟨some "sk", none, none⟩ = .credentialExpired :=
  expired_secondary_key_rejected _ _ _ "sk"
    ⟨⟨1, "T", "t", "pk", "basic", 10, 100, true⟩, some ["read"], some 5, some 50⟩
    50 rfl rfl (by decide) rfl (by decide)

/-- Claim C2: on the opaque-key path, with the count query succeeding, a
request is admitted exactly when the pre-admission count of the
current UTC day usage records is strictly below the effective limit, and otherwise is
rejected with QuotaExceeded carrying that limit. -/
theorem quota_admission_iff_count_below_limit (env : Env) (db : DB)
    (req : Request) (k : String) (row : KeyRow)
    (h1 : extractCredential req = some k) (h2 : hasJwtMarker k = false)
    (h3 : lookupByKey db k = some row)
    (h4 : isExpired row.expires_at env.now = false)
    (h5 : (jsTruthyNat row.api_key_rate_limit && !env.updateLastUsedOk) = false)
    (h6 : env.countQueryOk = true) :
    (countUsageSince db.usageLogs row.tenant.id (dayStart env.now) <
        jsOrNat row.api_key_rate_limit row.tenant.max_requests_per_day →
      authenticateTenant env db req =
        .admitted (apiReqTenant row
          (jsOrNat row.api_key_rate_limit row.tenant.max_requests_per_day))
          "api_key") ∧
    (jsOrNat row.api_key_rate_limit row.tenant.max_requests_per_day ≤
        countUsageSince db.usageLogs row.tenant.id (dayStart env.now) →
      authenticateTenant env db req =
        .quotaExceeded
          (jsOrNat row.api_key_rate_limit row.tenant.max_requests_per_day)
          (some (env.now + 86400000))) := by
  rw [auth_key_path env db req k h1 h2, h3]
  constructor
  · intro hc
    simp [resolveKeyRow, h4, h5, checkRateLimit, h6, hc]
  · intro hc
    simp [resolveKeyRow, h4, h5, checkRateLimit, h6, Nat.not_lt.mpr hc]

/-- Witness for C2 (the admit-then-exceed scenario): a tenant with
daily limit 2 authenticated by its primary key is admitted at observed
counts 0 and 1 and rejected with QuotaExceeded carrying limit 2 at
observed count 2. -/
theorem quota_admission_iff_count_below_limit_witness :
    authenticateTenant ⟨100000000, true, true, fun _ => none⟩
      ⟨[⟨1, "T", "t", "pk", "basic", 10, 2, true⟩], [], []⟩
      ⟨some "pk", none, none⟩ =
      .admitted
        (apiReqTenant ⟨⟨1, "T", "t", "pk", "basic", 10, 2, true⟩,
          none, none, none⟩ 2) "api_key" ∧
    authenticateTenant ⟨100000000, true, true, fun _ => none⟩
      ⟨[⟨1, "T", "t", "pk", "basic", 10, 2, true⟩], [], [⟨1, 99000000⟩]⟩
      ⟨some "pk", none, none⟩ =
      .admitted
        (apiReqTenant ⟨⟨1, "T", "t", "pk", "basic", 10, 2, true⟩,
          none, none, none⟩ 2) "api_key" ∧
    authenticateTenant ⟨100000000, true, true, fun _ => none⟩
      ⟨[⟨1, "T", "t", "pk", "basic", 10, 2, true⟩], [],
        [⟨1, 99000000⟩, ⟨1, 99000001⟩]⟩
      ⟨some "pk", none, none⟩ = .quotaExceeded 2 (some 186400000) :=
  ⟨(quota_admission_iff_count_below_limit
      ⟨100000000, true, true, fun _ => none⟩
      ⟨[⟨1, "T", "t", "pk", "basic", 10, 2, true⟩], [], []⟩
      ⟨some "pk", none, none⟩ "pk"
      ⟨⟨1, "T", "t", "pk", "basic", 10, 2, true⟩, none, none, none⟩
      rfl rfl (by decide) rfl rfl rfl).1 (by decide),
   (quota_admission_iff_count_below_limit
      ⟨100000000, true, true, fun _ => none⟩
      ⟨[⟨1, "T", "t", "pk", "basic", 10, 2, true⟩], [], [⟨1, 99000000⟩]⟩
      ⟨some "pk", none, none⟩ "pk"
      ⟨⟨1, "T", "t", "pk", "basic", 10, 2, true⟩, none, none, none⟩
      rfl rfl (by decide) rfl rfl rfl).1 (by decide),
   (quota_admission_iff_count_below_limit
      ⟨100000000, true, true, fun _ => none⟩
      ⟨[⟨1, "T", "t", "pk", "basic", 10, 2, true⟩], [],
        [⟨1, 99000000⟩, ⟨1, 99000001⟩]⟩
      ⟨some "pk", none, none⟩ "pk"
      ⟨⟨1, "T", "t", "pk", "basic", 10, 2, true⟩, none, none, none⟩
      rfl rfl (by decide) rfl rfl rfl).2 (by decide)⟩

/-- Claim C10: the key-validation join does not consult the secondary
key active flag, only its tenant id and key value: for an active
tenant and a matching secondary key the lookup result is the same for
every value of `is_active`, and with the flag set to `false` the
request still resolves to the permission set and rate-limit override
of the key and is admitted when unexpired and under quota. -/
theorem resolver_ignores_api_key_active_flag (env : Env) (req : Request)
    (t : Tenant) (ak : ApiKey) (logs : List UsageRecord) (k : String)
    (h1 : t.is_active = true) (h2 : ak.tenant_id = t.id)
    (h3 : ak.api_key = k) :
    (∀ b : Bool,
      lookupByKey ⟨[t], [{ ak with is_active := b }], logs⟩ k =
        some ⟨t, some ak.permissions, ak.rate_limit, ak.expires_at⟩) ∧
    (extractCredential req = some k → hasJwtMarker k = false →
      isExpired ak.expires_at env.now = false →
      (jsTruthyNat ak.rate_limit && !env.updateLastUsedOk) = false →
      env.countQueryOk = true →
      countUsageSince logs t.id (dayStart env.now) <
        jsOrNat ak.rate_limit t.max_requests_per_day →
      authenticateTenant env ⟨[t], [{ ak with is_active := false }], logs⟩ req =
        .admitted
          (apiReqTenant ⟨t, some ak.permissions, ak.rate_limit, ak.expires_at⟩
            (jsOrNat ak.rate_limit t.max_requests_per_day)) "api_key") := by
  have hlook : ∀ b : Bool,
      lookupByKey ⟨[t], [{ ak with is_active := b }], logs⟩ k =
        some ⟨t, some ak.permissions, ak.rate_limit, ak.expires_at⟩ := by
    intro b
    simp [lookupByKey, findApiKey, h1, h2, h3]
  refine ⟨hlook, ?_⟩
  intro e1 e2 e3 e4 e5 e6
  rw [auth_key_path env _ req k e1 e2, hlook false]
  simp [resolveKeyRow, e3, e4, checkRateLimit, e5, e6]

/-- Witness for C10: a secondary key whose `is_active` flag is false,
owned by an active tenant and unexpired, still resolves and the request
is admitted with the permission set and rate-limit override of the
key. -/
theorem resolver_ignores_api_key_active_flag_witness :
    lookupByKey
      ⟨[⟨1, "T", "t", "pk", "basic", 10, 2, true⟩],
        [⟨7, 1, "k", "sk", ["read"], some 5, false, none⟩], []⟩ "sk" =
      some ⟨⟨1, "T", "t", "pk", "basic", 10, 2, true⟩,
        some ["read"], some 5, none⟩ ∧
    authenticateTenant ⟨100000000, true, true, fun _ => none⟩
      ⟨[⟨1, "T", "t", "pk", "basic", 10, 2, true⟩],
        [⟨7, 1, "k", "sk", ["read"], some 5, false, none⟩], []⟩
      ⟨some "sk", none, none⟩ =
      .admitted
        (apiReqTenant ⟨⟨1, "T", "t", "pk", "basic", 10, 2, true⟩,
          some ["read"], some 5, none⟩ 5) "api_key" :=
  ⟨(resolver_ignores_api_key_active_flag
      ⟨100000000, true, true, fun _ => none⟩ ⟨some "sk", none, none⟩
      ⟨1, "T", "t", "pk", "basic", 10, 2, true⟩
      ⟨7, 1, "k", "sk", ["read"], some 5, true, none⟩ [] "sk"
      rfl rfl rfl).1 false,
   (resolver_ignores_api_key_active_flag
      ⟨100000000, true, true, fun _ => none⟩ ⟨some "sk", none, none⟩
      ⟨1, "T", "t", "pk", "basic", 10, 2, true⟩
      ⟨7, 1, "k", "sk", ["read"], some 5, true, none⟩ [] "sk"
      rfl rfl rfl).2 rfl rfl rfl rfl rfl (by decide)⟩

/-- Counterexample for C1: a session-token request for tenant 1 whose
daily count (2) has reached the tenant daily quota
(`max_requests_per_day = 2`) is admitted with authMethod `jwt` and is
not rejected with QuotaExceeded: the JWT branch returns before the
quota check runs. -/
theorem jwt_request_bypasses_quota_cex :
    authenticateTenant
      ⟨100000000, true, true, fun s => if s == "eyJx" then some 1 else none⟩
      ⟨[⟨1, "T", "t", "pk", "basic", 10, 2, true⟩], [],
        [⟨1, 99000000⟩, ⟨1, 99000001⟩]⟩
      ⟨some "eyJx", none, none⟩ =
      .admitted (jwtReqTenant ⟨1, "T", "t", "pk", "basic", 10, 2, true⟩)
        "jwt" ∧
    2 ≤ countUsageSince [⟨1, 99000000⟩, ⟨1, 99000001⟩] 1
        (dayStart 100000000) ∧
    authenticateTenant
      ⟨100000000, true, true, fun s => if s == "eyJx" then some 1 else none⟩
      ⟨[⟨1, "T", "t", "pk", "basic", 10, 2, true⟩], [],
        [⟨1, 99000000⟩, ⟨1, 99000001⟩]⟩
      ⟨some "eyJx", none, none⟩ ≠ .quotaExceeded 2 (some 186400000) := by
  refine ⟨by decide, by decide, by decide⟩

/-- Claim C1 as amended: the Quota Enforcer runs only on the opaque-key path;
a request carrying a credential with the JWT marker is never rejected
with QuotaExceeded, and once the token verifies and the tenant is found
active it is admitted regardless of the daily count of the tenant. -/
theorem jwt_request_bypasses_quota (env : Env) (db : DB) (req : Request)
    (k : String) (h1 : extractCredential req = some k)
    (h2 : hasJwtMarker k = true) :
    (∀ L r, authenticateTenant env db req ≠ .quotaExceeded L r) ∧
    (∀ tid t, env.jwtVerify k = some tid →
      db.tenants.find? (fun t0 => t0.id == tid && t0.is_active) = some t →
      authenticateTenant env db req = .admitted (jwtReqTenant t) "jwt") := by
  constructor
  · intro L r
    unfold authenticateTenant
    rw [h1]
    simp only [h2, if_true]
    split
    · simp
    · split <;> simp
  · intro tid t hv hf
    simp [authenticateTenant, h1, h2, hv, hf]

/-- Witness for C1: the concrete session-token request of the
counterexample is admitted via the amended theorem, and no QuotaExceeded
rejection with the tenant limit is possible for it. -/
theorem jwt_request_bypasses_quota_witness :
    authenticateTenant
      ⟨100000000, true, true, fun s => if s == "eyJx" then some 1 else none⟩
      ⟨[⟨1, "T", "t", "pk", "basic", 10, 2, true⟩], [],
        [⟨1, 99000000⟩, ⟨1, 99000001⟩]⟩
      ⟨some "eyJx", none, none⟩ =
      .admitted (jwtReqTenant ⟨1, "T", "t", "pk", "basic", 10, 2, true⟩)
        "jwt" ∧
    authenticateTenant
      ⟨100000000, true, true, fun s => if s == "eyJx" then some 1 else none⟩
      ⟨[⟨1, "T", "t", "pk", "basic", 10, 2, true⟩], [],
        [⟨1, 99000000⟩, ⟨1, 99000001⟩]⟩
      ⟨some "eyJx", none, none⟩ ≠ .quotaExceeded 2 (some 186400000) :=
  ⟨(jwt_request_bypasses_quota
      ⟨100000000, true, true, fun s => if s == "eyJx" then some 1 else none⟩
      ⟨[⟨1, "T", "t", "pk", "basic", 10, 2, true⟩], [],
        [⟨1, 99000000⟩, ⟨1, 99000001⟩]⟩
      ⟨some "eyJx", none, none⟩ "eyJx" rfl rfl).2 1
      ⟨1, "T", "t", "pk", "basic", 10, 2, true⟩ (by decide) (by decide),
   (jwt_request_bypasses_quota
      ⟨100000000, true, true, fun s => if s == "eyJx" then some 1 else none⟩
      ⟨[⟨1, "T", "t", "pk", "basic", 10, 2, true⟩], [],
        [⟨1, 99000000⟩, ⟨1, 99000001⟩]⟩
      ⟨some "eyJx", none, none⟩ "eyJx" rfl rfl).1 2 (some 186400000)⟩

/-- Counterexample for C6: with the last-used update failing, a request
authenticated by a secondary key (rate-limit override 5, unexpired,
active tenant, zero usage today) receives a 500 internal error instead
of its normal admitted outcome: the update is awaited inside the
try block of the middleware, so its rejection is caught by the outer
catch
and fails the request before admission. -/
theorem last_used_update_failure_cex :
    authenticateTenant ⟨100000000, true, false, fun _ => none⟩
      ⟨[⟨1, "T", "t", "pk", "basic", 10, 100, true⟩],
        [⟨7, 1, "k", "sk", ["read"], some 5, true, none⟩], []⟩
      ⟨some "sk", none, none⟩ = .internalError ∧
    authenticateTenant ⟨100000000, true, false, fun _ => none⟩
      ⟨[⟨1, "T", "t", "pk", "basic", 10, 100, true⟩],
        [⟨7, 1, "k", "sk", ["read"], some 5, true, none⟩], []⟩
      ⟨some "sk", none, none⟩ ≠
      .admitted
        (apiReqTenant ⟨⟨1, "T", "t", "pk", "basic", 10, 100, true⟩,
          some ["read"], some 5, none⟩ 5) "api_key" := by
  refine ⟨by decide, by decide⟩

/-- Claim C6 as amended: when resolution matched a secondary ApiKey carrying
a truthy rate-limit override, the last-used update is awaited before
admission, and its failure fails the whole request with a 500 internal
error; the request never reaches the quota check. -/
theorem last_used_update_failure_internal_error (env : Env) (db : DB)
    (req : Request) (k : String) (row : KeyRow)
    (h1 : extractCredential req = some k) (h2 : hasJwtMarker k = false)
    (h3 : lookupByKey db k = some row)
    (h4 : isExpired row.expires_at env.now = false)
    (h5 : jsTruthyNat row.api_key_rate_limit = true)
    (h6 : env.updateLastUsedOk = false) :
    authenticateTenant env db req = .internalError := by
  rw [auth_key_path env db req k h1 h2, h3]
  simp [resolveKeyRow, h4, h5, h6]

/-- Witness for C6: the concrete failing-update request of the
counterexample derived through the amended theorem. -/
theorem last_used_update_failure_internal_error_witness :
    authenticateTenant ⟨100000000, true, false, fun _ => none⟩
      ⟨[⟨1, "T", "t", "pk", "basic", 10, 100, true⟩],
        [⟨7, 1, "k", "sk", ["read"], some 5, true, none⟩], []⟩
      ⟨some "sk", none, none⟩ = .internalError :=
  last_used_update_failure_internal_error
    ⟨100000000, true, false, fun _ => none⟩
    ⟨[⟨1, "T", "t", "pk", "basic", 10, 100, true⟩],
      [⟨7, 1, "k", "sk", ["read"], some 5, true, none⟩], []⟩
    ⟨some "sk", none, none⟩ "sk"
    ⟨⟨1, "T", "t", "pk", "basic", 10, 100, true⟩, some ["read"], some 5, none⟩
    rfl rfl (by decide) rfl rfl rfl

/-- Counterexample for C7: a join whose credential check succeeds but
whose Connection-row insert fails leaves the tenant BOUND on the socket
(the handler assigns `socket.tenantId` before persisting), so a
subsequent authenticated-only operation proceeds as tenant 1 instead of
being rejected with an unauthenticated error; no Connection row was
persisted. -/
theorem failed_join_binds_tenant_cex :
    (joinTenant ⟨[⟨1, "T", "t", "pk", "basic", 10, 100, true⟩], [], []⟩
        [] ⟨none⟩ "s1" 1 "pk" 5 false).socket.tenantId = some 1 ∧
    executeQueryGate
      (joinTenant ⟨[⟨1, "T", "t", "pk", "basic", 10, 100, true⟩], [], []⟩
        [] ⟨none⟩ "s1" 1 "pk" 5 false).socket = .executed 1 ∧
    (joinTenant ⟨[⟨1, "T", "t", "pk", "basic", 10, 100, true⟩], [], []⟩
        [] ⟨none⟩ "s1" 1 "pk" 5 false).rows = [] := by
  refine ⟨by decide, by decide, by decide⟩

/-- Claim C7 as amended: a join that fails the credential check leaves the
socket state and the Connection table untouched, emits an error and
does not tear the connection down (so a connection with no tenant bound
still rejects authenticated-only operations); a join that passes the
credential check but fails to persist the Connection row also emits an
error and is not torn down, but leaves the tenant bound on the socket,
so subsequent authenticated-only operations proceed. -/
theorem failed_join_state (db : DB) (rows : List ConnRow) (s : SocketState)
    (sid : String) (tid : Nat) (key : String) (now : Nat) (insertOk : Bool) :
    (verifyTenantWs db tid key = none →
      joinTenant db rows s sid tid key now insertOk =
        ⟨s, rows, .errorMsg "Invalid tenant credentials", false⟩ ∧
      (s.tenantId = none →
        executeQueryGate
          (joinTenant db rows s sid tid key now insertOk).socket =
          .notAuthenticated)) ∧
    (∀ t, verifyTenantWs db tid key = some t → insertOk = false →
      joinTenant db rows s sid tid key now insertOk =
        ⟨⟨some tid⟩, rows, .errorMsg "Connection failed", false⟩ ∧
      executeQueryGate
        (joinTenant db rows s sid tid key now insertOk).socket =
        .executed tid) := by
  constructor
  · intro h
    refine ⟨by simp [joinTenant, h], ?_⟩
    intro hs
    simp [joinTenant, h, executeQueryGate, hs]
  · intro t h hins
    subst hins
    refine ⟨by simp [joinTenant, h], by simp [joinTenant, h, executeQueryGate]⟩

/-- Witness for C7: a mismatched-credential join on a fresh connection
leaves it unbound with authenticated operations rejected; a
persistence-failure join leaves tenant 1 bound with authenticated
operations proceeding. -/
theorem failed_join_state_witness :
    joinTenant ⟨[⟨1, "T", "t", "pk", "basic", 10, 100, true⟩], [], []⟩
        [] ⟨none⟩ "s1" 1 "wrong" 5 true =
      ⟨⟨none⟩, [], .errorMsg "Invalid tenant credentials", false⟩ ∧
    executeQueryGate
      (joinTenant ⟨[⟨1, "T", "t", "pk", "basic", 10, 100, true⟩], [], []⟩
        [] ⟨none⟩ "s1" 1 "wrong" 5 true).socket = .notAuthenticated ∧
    joinTenant ⟨[⟨1, "T", "t", "pk", "basic", 10, 100, true⟩], [], []⟩
        [] ⟨none⟩ "s1" 1 "pk" 5 false =
      ⟨⟨some 1⟩, [], .errorMsg "Connection failed", false⟩ :=
  ⟨((failed_join_state ⟨[⟨1, "T", "t", "pk", "basic", 10, 100, true⟩], [], []⟩
      [] ⟨none⟩ "s1" 1 "wrong" 5 true).1 (by decide)).1,
   ((failed_join_state ⟨[⟨1, "T", "t", "pk", "basic", 10, 100, true⟩], [], []⟩
      [] ⟨none⟩ "s1" 1 "wrong" 5 true).1 (by decide)).2 rfl,
   ((failed_join_state ⟨[⟨1, "T", "t", "pk", "basic", 10, 100, true⟩], [], []⟩
      [] ⟨none⟩ "s1" 1 "pk" 5 false).2
      ⟨1, "T", "t", "pk", "basic", 10, 100, true⟩ (by decide) rfl).1⟩

/-- After an upsert, every row carrying the upserted connection id has
the refreshed heartbeat and the active flag set. -/
lemma upsert_cid_mem (rows : List ConnRow) (tid : Nat) (cid sid : String)
    (now : Nat) :
    ∀ r ∈ upsertConnection rows tid cid sid now,
      r.connection_id = cid → r.last_ping_at = now ∧ r.is_active = true := by
  intro r hr hcid
  unfold upsertConnection at hr
  split at hr
  · rcases List.mem_map.mp hr with ⟨r0, hr0, rfl⟩
    by_cases h : r0.connection_id == cid
    · simp [h]
    · simp only [if_neg h] at hcid ⊢
      exact absurd hcid (by simpa using h)
  · rcases List.mem_append.mp hr with h | h
    · rename_i hany
      exact absurd (List.any_eq_true.mpr ⟨r, h, by simp [hcid]⟩) hany
    · simp only [List.mem_singleton] at h
      subst h
      exact ⟨rfl, rfl⟩

/-- An upsert keyed on the connection id leaves exactly one row for a
fresh id and preserves the row count for an existing one. -/
lemma upsert_cid_count (rows : List ConnRow) (tid : Nat) (cid sid : String)
    (now : Nat) :
    cidCount (upsertConnection rows tid cid sid now) cid =
      if cidCount rows cid = 0 then 1 else cidCount rows cid := by
  unfold upsertConnection cidCount
  split
  · rename_i hany
    rcases List.any_eq_true.mp hany with ⟨r, hr, hp⟩
    have hne : rows.countP (fun r => r.connection_id == cid) ≠ 0 := by
      intro h0
      exact absurd hp (by simpa using List.countP_eq_zero.mp h0 r hr)
    rw [List.countP_map, if_neg hne]
    have hfun :
        ((fun r : ConnRow => r.connection_id == cid) ∘ fun r =>
          if r.connection_id == cid then
            { r with last_ping_at := now, is_active := true }
          else r) = fun r : ConnRow => r.connection_id == cid := by
      funext r
      by_cases h : r.connection_id = cid <;> simp [h]
    rw [hfun]
  · rename_i hany
    have h0 : rows.countP (fun r => r.connection_id == cid) = 0 := by
      rw [List.countP_eq_zero]
      intro r hr hp
      exact hany (List.any_eq_true.mpr ⟨r, hr, hp⟩)
    rw [List.countP_append, h0, if_pos rfl]
    simp [List.countP_cons]

/-- Claim C8: a join followed by a re-join with the same connection id on a
table not yet containing that id results in exactly one row for the id,
with the heartbeat refreshed to the second join time and the active
flag true. -/
theorem rejoin_single_connection_row (db : DB) (rows : List ConnRow)
    (s : SocketState) (sid : String) (tid : Nat) (key : String)
    (now1 now2 : Nat) (t : Tenant)
    (hv : verifyTenantWs db tid key = some t)
    (h0 : cidCount rows sid = 0) :
    cidCount (joinTenant db
      (joinTenant db rows s sid tid key now1 true).rows
      (joinTenant db rows s sid tid key now1 true).socket
      sid tid key now2 true).rows sid = 1 ∧
    ∀ r ∈ (joinTenant db
      (joinTenant db rows s sid tid key now1 true).rows
      (joinTenant db rows s sid tid key now1 true).socket
      sid tid key now2 true).rows,
      r.connection_id = sid → r.last_ping_at = now2 ∧ r.is_active = true := by
  have hrows1 : (joinTenant db rows s sid tid key now1 true).rows =
      upsertConnection rows tid sid sid now1 := by
    simp [joinTenant, hv]
  have hrows2 : (joinTenant db
      (joinTenant db rows s sid tid key now1 true).rows
      (joinTenant db rows s sid tid key now1 true).socket
      sid tid key now2 true).rows =
      upsertConnection (upsertConnection rows tid sid sid now1) tid sid sid
        now2 := by
    simp [joinTenant, hv, hrows1]
  rw [hrows2]
  refine ⟨?_, upsert_cid_mem _ _ _ _ _⟩
  rw [upsert_cid_count, upsert_cid_count, h0]
  simp

/-- Witness for C8: tenant 1 joins with connection id `s1` at time 5 and
re-joins at time 9; the table holds exactly one row for `s1`. -/
theorem rejoin_single_connection_row_witness :
    cidCount (joinTenant ⟨[⟨1, "T", "t", "pk", "basic", 10, 100, true⟩], [], []⟩
      (joinTenant ⟨[⟨1, "T", "t", "pk", "basic", 10, 100, true⟩], [], []⟩
        [] ⟨none⟩ "s1" 1 "pk" 5 true).rows
      (joinTenant ⟨[⟨1, "T", "t", "pk", "basic", 10, 100, true⟩], [], []⟩
        [] ⟨none⟩ "s1" 1 "pk" 5 true).socket
      "s1" 1 "pk" 9 true).rows "s1" = 1 :=
  (rejoin_single_connection_row
    ⟨[⟨1, "T", "t", "pk", "basic", 10, 100, true⟩], [], []⟩
    [] ⟨none⟩ "s1" 1 "pk" 5 9
    ⟨1, "T", "t", "pk", "basic", 10, 100, true⟩ (by decide) rfl).1
